import Mathlib

/-!
Verification of the effect-redis core (core/index.ts and the command-group
files) against its specification.

The embedding models:
  * JS-level values, the unified `RedisError` wrapping a cause;
  * the underlying node-redis client: `multi()` yields a fresh queuing
    handle; command calls on it only append to its queue; `exec()` resolves
    to either an ordered reply list or the abort sentinel (null), or rejects;
    `execAsPipeline()` resolves to an ordered reply list or rejects;
  * composition functions passed to `multi` / `pipeline` as syntax trees
    (`TxProg`): every concrete run of a caller block against the Queued
    surface is a straight-line trace of queued calls ending in a returned
    value or a typed failure, because queued callables give no data back to
    the block (they discard the chainable handle);
  * the orchestrations `multi` and `pipeline` of `makeRedisCore`
    (core/index.ts lines 96-123) as `multiRun` / `pipelineRun`;
  * a concrete reference store and client (`refClient`) giving executable
    witnesses.
-/

/-- JS-style values: command arguments, replies and error causes. -/
inductive Value where
  | str : String → Value
  | num : Int → Value
  | nil : Value
  | errv : String → Value
deriving DecidableEq, Repr

/-- The unified error kind (errors.ts, used as `new RedisError(\x7b cause: e \x7d)`
in core/index.ts): one structured failure carrying the original cause. -/
structure RedisError where
  cause : Value
deriving DecidableEq, Repr

/-- One queued command: the method name invoked on the queuing handle and the
arguments forwarded verbatim. -/
structure Cmd where
  name : String
  args : List Value
deriving DecidableEq, Repr

/-- The store itself, modelled as an association list of key-value pairs. -/
abbrev Store := List (String × Value)

/-- Outcome of awaiting a JS promise: resolved with a value, or rejected with
a cause. -/
inductive PromiseResult (α : Type) where
  | resolved : α → PromiseResult α
  | rejected : Value → PromiseResult α
deriving DecidableEq, Repr

/-- What `txClient.exec()` can resolve to, following the declared type
`ReadonlyArray<unknown> | null` of core/index.ts lines 36-41: either the
abort sentinel (null, transaction discarded) or the ordered reply list. -/
inductive ExecResults where
  | aborted : ExecResults
  | results : List Value → ExecResults
deriving DecidableEq, Repr

/-- The underlying client collaborator, at its interface boundary: the two
batch-execution operations on a queuing handle, as functions of the store
state and the accumulated queue.  `exec` is atomic execution (may resolve to
the abort sentinel), `execAsPipeline` is pipelined execution (its declared
source type has no null, hence a client honouring the interface never
resolves it to `ExecResults.aborted`). -/
structure Client where
  exec : Store → List Cmd → PromiseResult ExecResults × Store
  execAsPipeline : Store → List Cmd → PromiseResult ExecResults × Store

/-- State of one queuing handle (`const txClient = c.multi()`): the commands
accumulated so far, plus the store visible through the connection, threaded
so that the embedding can express that queuing never touches the store. -/
structure TxClientState where
  queue : List Cmd
  store : Store
deriving DecidableEq, Repr

/-- A composition function passed to `multi` / `pipeline`, as the trace of
its interaction with the Queued surface: it queues commands in some order
interleaved with its own control flow, and ends by returning a value or
failing in the typed `RedisError` channel.  Queued callables return nothing
usable (the chainable handle is discarded), so the trace carries no data from
the store back into the block. -/
inductive TxProg (A : Type) where
  | pure : A → TxProg A
  | fail : RedisError → TxProg A
  | queue : Cmd → TxProg A → TxProg A

/-- Running a composition function against the Queued surface bound to a
queuing-handle state: each queued call appends one command to the handle, in
call order; nothing executes against the store. -/
def runProg {A : Type} : TxProg A → TxClientState → Except RedisError (A × TxClientState)
  | .pure a, st => .ok (a, st)
  | .fail e, _ => .error e
  | .queue c k, st => runProg k { st with queue := st.queue ++ [c] }

/-- The commands a composition function queues on a fresh (empty) handle,
together with its returned value; determined by the program alone. -/
def freshQueue {A : Type} : TxProg A → Except RedisError (A × List Cmd)
  | .pure a => .ok (a, [])
  | .fail e => .error e
  | .queue c k =>
    match freshQueue k with
    | .error e => .error e
    | .ok r => .ok (r.1, c :: r.2)

/-- Embedding of `multi` (core/index.ts lines 96-109): acquire a fresh
queuing handle, run the composition function against the Queued surface,
then `yield* Effect.tryPromise` around `txClient.exec()`, wrapping a
rejection cause into `RedisError`; on success return the Outcome Pair. -/
def multiRun {A : Type} (c : Client) (prog : TxProg A) (s : Store) :
    Except RedisError ((A × ExecResults) × Store) :=
  match runProg prog ⟨[], s⟩ with
  | .error e => .error e
  | .ok (a, st) =>
    match c.exec st.store st.queue with
    | (.resolved v, s') => .ok ((a, v), s')
    | (.rejected cause, _) => .error ⟨cause⟩

/-- Embedding of `pipeline` (core/index.ts lines 110-123): identical to
`multiRun` except that the Execute step is `txClient.execAsPipeline()`. -/
def pipelineRun {A : Type} (c : Client) (prog : TxProg A) (s : Store) :
    Except RedisError ((A × ExecResults) × Store) :=
  match runProg prog ⟨[], s⟩ with
  | .error e => .error e
  | .ok (a, st) =>
    match c.execAsPipeline st.store st.queue with
    | (.resolved v, s') => .ok ((a, v), s')
    | (.rejected cause, _) => .error ⟨cause⟩

/-- Write a key into the association-list store. -/
def setKey : Store → String → Value → Store
  | [], k, v => [(k, v)]
  | (k', v') :: rest, k, v =>
    if k' = k then (k, v) :: rest else (k', v') :: setKey rest k v

/-- Read a key from the association-list store (nil when absent). -/
def getKey : Store → String → Value
  | [], _ => .nil
  | (k', v') :: rest, k => if k' = k then v' else getKey rest k

/-- Reference interpretation of a single command by the store: SET and GET
with their usual replies; anything else is an error reply, store unchanged. -/
def applyCmd (s : Store) (c : Cmd) : Value × Store :=
  match c.name, c.args with
  | "set", [.str k, v] => (.str "OK", setKey s k v)
  | "get", [.str k] => (getKey s k, s)
  | _, _ => (.errv "ERR unknown command", s)

/-- Reference execution of a queued batch: apply the commands strictly in
queue order, collecting one reply per command. -/
def runCmds (s : Store) : List Cmd → List Value × Store
  | [] => ([], s)
  | c :: cs =>
    let r := applyCmd s c
    let rest := runCmds r.2 cs
    (r.1 :: rest.1, rest.2)

/-- A reference client honouring the collaborator contract: both
batch-execution operations apply the queued commands in order and resolve
with the ordered reply list; it never aborts and never rejects. -/
def refClient : Client :=
  ⟨fun s q => (.resolved (.results (runCmds s q).1), (runCmds s q).2),
   fun s q => (.resolved (.results (runCmds s q).1), (runCmds s q).2)⟩

/-- A client whose atomic execution reports the transaction as discarded
(resolves to the abort sentinel), leaving the store unchanged. -/
def abortClient : Client :=
  ⟨fun s _ => (.resolved .aborted, s),
   fun s q => (.resolved (.results (runCmds s q).1), (runCmds s q).2)⟩

/-- A client whose batch-execution promises always reject. -/
def failExecClient : Client :=
  ⟨fun s _ => (.rejected (.str "boom"), s),
   fun s _ => (.rejected (.str "boom"), s)⟩

/-- Running a composition function from any handle state only appends that
function's own commands (in order) after the commands already queued, and
leaves the store untouched. -/
theorem runProg_eq {A : Type} (prog : TxProg A) (q0 : List Cmd) (s : Store) :
    runProg prog ⟨q0, s⟩ =
      match freshQueue prog with
      | .error e => .error e
      | .ok r => .ok (r.1, ⟨q0 ++ r.2, s⟩) := by
  induction prog generalizing q0 with
  | pure a => simp [runProg, freshQueue]
  | fail e => simp [runProg, freshQueue]
  | queue c k ih =>
    simp only [runProg]
    rw [ih (q0 ++ [c])]
    cases hk : freshQueue k with
    | error e => simp [freshQueue, hk]
    | ok r => simp [freshQueue, hk]

/-- The reference execution produces exactly one reply per queued command. -/
theorem runCmds_length (s : Store) (q : List Cmd) :
    (runCmds s q).1.length = q.length := by
  induction q generalizing s with
  | nil => rfl
  | cons c cs ih => simp [runCmds, ih]

/-- The n-th reply of the reference execution is the reply of the n-th
queued command, executed against the store reached by the first n. -/
theorem runCmds_get (s : Store) (q : List Cmd) (n : Nat) (h : n < q.length) :
    (runCmds s q).1.get ⟨n, by rw [runCmds_length]; exact h⟩ =
      (applyCmd (runCmds s (q.take n)).2 (q.get ⟨n, h⟩)).1 := by
  induction q generalizing s n with
  | nil => exact absurd h (Nat.not_lt_zero n)
  | cons c cs ih =>
    cases n with
    | zero => simp [runCmds]
    | succ m =>
      simp only [runCmds, List.take, List.get]
      exact ih (applyCmd s c).2 m (Nat.lt_of_succ_lt_succ h)

/-- When the composition function succeeds, `multi` executes exactly the
commands it queued on the fresh handle, via `txClient.exec()`. -/
theorem multiRun_ok {A : Type} (c : Client) (prog : TxProg A) (s : Store)
    (a : A) (q : List Cmd) (h : freshQueue prog = .ok (a, q)) :
    multiRun c prog s =
      (match c.exec s q with
       | (.resolved v, s') => .ok ((a, v), s')
       | (.rejected cause, _) => .error (⟨cause⟩ : RedisError)) := by
  have hr : runProg prog ⟨[], s⟩ = .ok (a, ⟨q, s⟩) := by
    rw [runProg_eq, h]
    rfl
  simp only [multiRun, hr]

/-- When the composition function succeeds, `pipeline` executes exactly the
commands it queued on the fresh handle, via `txClient.execAsPipeline()`. -/
theorem pipelineRun_ok {A : Type} (c : Client) (prog : TxProg A) (s : Store)
    (a : A) (q : List Cmd) (h : freshQueue prog = .ok (a, q)) :
    pipelineRun c prog s =
      (match c.execAsPipeline s q with
       | (.resolved v, s') => .ok ((a, v), s')
       | (.rejected cause, _) => .error (⟨cause⟩ : RedisError)) := by
  have hr : runProg prog ⟨[], s⟩ = .ok (a, ⟨q, s⟩) := by
    rw [runProg_eq, h]
    rfl
  simp only [pipelineRun, hr]

/-- The spec scenario for composition independence: queue one set command
and return 42. -/
def scenarioProg : TxProg Nat :=
  .queue ⟨"set", [.str "a", .str "1"]⟩ (.pure 42)

/-- Claim C1: the Outcome Pair's first slot is exactly the value the
composition function produced, for every client, independent of the
per-command results; a block that queues zero commands still yields its own
value; and the spec scenario (queue one set, return 42) yields programResult
42 with one execution result. -/
theorem C1_programResult_independent {A : Type} (prog : TxProg A) (c : Client)
    (s : Store) (a : A) (q : List Cmd)
    (h : freshQueue prog = .ok (a, q)) :
    (∀ p s', pipelineRun c prog s = .ok (p, s') → p.1 = a) ∧
    (∀ p s', multiRun c prog s = .ok (p, s') → p.1 = a) ∧
    pipelineRun refClient scenarioProg [] =
      .ok ((42, .results [.str "OK"]), [("a", .str "1")]) ∧
    (∀ b : A, multiRun refClient (.pure b) s = .ok ((b, .results []), s)) := by
  refine ⟨?_, ?_, rfl, ?_⟩
  · intro p s' hp
    rw [pipelineRun_ok c prog s a q h] at hp
    rcases hx : c.execAsPipeline s q with ⟨pr, s2⟩
    rw [hx] at hp
    cases pr with
    | resolved v =>
      simp only [Except.ok.injEq, Prod.mk.injEq] at hp
      rw [← hp.1]
    | rejected cause => simp at hp
  · intro p s' hp
    rw [multiRun_ok c prog s a q h] at hp
    rcases hx : c.exec s q with ⟨pr, s2⟩
    rw [hx] at hp
    cases pr with
    | resolved v =>
      simp only [Except.ok.injEq, Prod.mk.injEq] at hp
      rw [← hp.1]
    | rejected cause => simp at hp
  · intro b
    rw [multiRun_ok refClient (.pure b) s b [] rfl]
    rfl

/-- Concrete instance of C1 at the spec scenario. -/
theorem C1_witness :
    pipelineRun refClient scenarioProg [] =
      .ok ((42, .results [.str "OK"]), [("a", .str "1")]) :=
  (C1_programResult_independent scenarioProg refClient [] 42
      [⟨"set", [.str "a", .str "1"]⟩] rfl).2.2.1

/-- Claim C2: for `multi`, the execution-results slot is the abort sentinel
exactly when the store reported the atomic transaction as discarded, and in
that case the orchestration still completes as a normal success; when the
store resolves with replies, the slot carries that reply list whole, never a
partial prefix. -/
theorem C2_multi_abort_sentinel {A : Type} (c : Client) (prog : TxProg A)
    (s : Store) (a : A) (q : List Cmd) (h : freshQueue prog = .ok (a, q)) :
    (∀ s', c.exec s q = (.resolved .aborted, s') →
        multiRun c prog s = .ok ((a, .aborted), s')) ∧
    (∀ p s', multiRun c prog s = .ok (p, s') →
        (p.2 = .aborted ↔ (c.exec s q).1 = .resolved .aborted)) ∧
    (∀ rs s', c.exec s q = (.resolved (.results rs), s') →
        multiRun c prog s = .ok ((a, .results rs), s')) := by
  have hm := multiRun_ok c prog s a q h
  refine ⟨?_, ?_, ?_⟩
  · intro s' hx
    rw [hm, hx]
  · intro p s' hp
    rw [hm] at hp
    rcases hx : c.exec s q with ⟨pr, s2⟩
    rw [hx] at hp
    cases pr with
    | resolved v =>
      simp only [Except.ok.injEq, Prod.mk.injEq] at hp
      rw [← hp.1]
      cases v <;> simp [hx]
    | rejected cause => simp at hp
  · intro rs s' hx
    rw [hm, hx]

/-- Concrete instance of C2: a client reporting discard yields the abort
sentinel inside a normal success. -/
theorem C2_witness :
    multiRun abortClient (TxProg.pure (0 : Nat)) [] = .ok ((0, .aborted), []) :=
  ((C2_multi_abort_sentinel abortClient (.pure 0) [] 0 [] rfl).1) [] rfl

/-- Claim C3: for `pipeline`, against any client honouring the declared
pipelined-execute interface (which never resolves to the abort sentinel),
the execution-results slot of a successful Outcome Pair is never the abort
sentinel. -/
theorem C3_pipeline_never_aborted {A : Type} (c : Client)
    (hc : ∀ s q, (c.execAsPipeline s q).1 ≠ PromiseResult.resolved ExecResults.aborted)
    (prog : TxProg A) (s : Store) (p : A × ExecResults) (s' : Store)
    (h : pipelineRun c prog s = .ok (p, s')) : p.2 ≠ ExecResults.aborted := by
  intro hab
  cases hf : freshQueue prog with
  | error e =>
    have he : pipelineRun c prog s = .error e := by
      unfold pipelineRun
      rw [runProg_eq, hf]
    rw [he] at h
    simp at h
  | ok r =>
    obtain ⟨a, q⟩ := r
    rw [pipelineRun_ok c prog s a q hf] at h
    rcases hx : c.execAsPipeline s q with ⟨pr, s2⟩
    rw [hx] at h
    cases pr with
    | resolved v =>
      simp only [Except.ok.injEq, Prod.mk.injEq] at h
      rw [← h.1] at hab
      have hcontra := hc s q
      rw [hx, ← hab] at hcontra
      exact hcontra rfl
    | rejected cause => simp at h

/-- Concrete instance of C3 at the reference client. -/
theorem C3_witness :
    (((1 : Nat), ExecResults.results []).2 : ExecResults) ≠ ExecResults.aborted :=
  C3_pipeline_never_aborted refClient
    (fun s q => by simp [refClient]) (.pure 1) [] ((1 : Nat), .results []) [] rfl

/-- Claim C4: any failure between Open and Execute fails the whole
orchestration in the unified `RedisError` channel and no Outcome Pair is
produced: a composition-function failure propagates as that very error, and
a rejected batch-execution promise is wrapped as `RedisError` carrying the
original cause, for both `multi` and `pipeline`. -/
theorem C4_unified_error_on_failure {A : Type} (c : Client) (prog : TxProg A)
    (s : Store) :
    (∀ e, runProg prog ⟨[], s⟩ = .error e →
        multiRun c prog s = .error e ∧ pipelineRun c prog s = .error e) ∧
    (∀ a q cause s', freshQueue prog = .ok (a, q) →
        c.exec s q = (.rejected cause, s') →
        multiRun c prog s = .error ⟨cause⟩) ∧
    (∀ a q cause s', freshQueue prog = .ok (a, q) →
        c.execAsPipeline s q = (.rejected cause, s') →
        pipelineRun c prog s = .error ⟨cause⟩) := by
  refine ⟨?_, ?_, ?_⟩
  · intro e he
    constructor
    · unfold multiRun
      rw [he]
    · unfold pipelineRun
      rw [he]
  · intro a q cause s' hf hx
    rw [multiRun_ok c prog s a q hf, hx]
  · intro a q cause s' hf hx
    rw [pipelineRun_ok c prog s a q hf, hx]

/-- Concrete instance of C4: a rejecting batch execution surfaces as the
unified error wrapping the rejection cause. -/
theorem C4_witness :
    multiRun failExecClient (TxProg.pure (0 : Nat)) [] = .error ⟨.str "boom"⟩ :=
  (C4_unified_error_on_failure failExecClient (.pure 0) []).2.1
    0 [] (.str "boom") [] rfl rfl

/-- Claim C5: while the composition function runs, nothing executes against
the store (the handle state after Build keeps the initial store); after
Execute, both orchestrations return one reply per queued command, in queue
order, the n-th reply being the n-th queued command's reply. -/
theorem C5_deferred_then_ordered {A : Type} (prog : TxProg A) (s : Store)
    (a : A) (st : TxClientState) (h : runProg prog ⟨[], s⟩ = .ok (a, st)) :
    st.store = s ∧
    multiRun refClient prog s =
      .ok ((a, .results (runCmds s st.queue).1), (runCmds s st.queue).2) ∧
    pipelineRun refClient prog s =
      .ok ((a, .results (runCmds s st.queue).1), (runCmds s st.queue).2) ∧
    (runCmds s st.queue).1.length = st.queue.length ∧
    ∀ (n : Nat) (hn : n < st.queue.length),
      (runCmds s st.queue).1.get ⟨n, by rw [runCmds_length]; exact hn⟩ =
        (applyCmd (runCmds s (st.queue.take n)).2 (st.queue.get ⟨n, hn⟩)).1 := by
  rw [runProg_eq] at h
  cases hf : freshQueue prog with
  | error e =>
    rw [hf] at h
    simp at h
  | ok r =>
    rw [hf] at h
    simp only [Except.ok.injEq, Prod.mk.injEq] at h
    obtain ⟨ha, hst⟩ := h
    subst hst
    refine ⟨rfl, ?_, ?_, runCmds_length s ([] ++ r.2), ?_⟩
    · rw [multiRun_ok refClient prog s r.1 r.2 ?hfr]
      case hfr => rw [hf]
      · rw [ha]
        rfl
    · rw [pipelineRun_ok refClient prog s r.1 r.2 ?hfr2]
      case hfr2 => rw [hf]
      · rw [ha]
        rfl
    · intro n hn
      exact runCmds_get s ([] ++ r.2) n hn

/-- The spec scenario of a basic round trip: queue a set then a get on the
same key inside one transaction scope. -/
def roundTripProg : TxProg Nat :=
  .queue ⟨"set", [.str "k", .str "v"]⟩ (.queue ⟨"get", [.str "k"]⟩ (.pure 0))

/-- Concrete instance of C5 at the basic round trip: two replies, the first
acknowledging the write, the second reading it back. -/
theorem C5_witness :
    multiRun refClient roundTripProg [] =
      .ok ((0, .results [.str "OK", .str "v"]), [("k", .str "v")]) :=
  (C5_deferred_then_ordered roundTripProg [] 0
      ⟨[⟨"set", [.str "k", .str "v"]⟩, ⟨"get", [.str "k"]⟩], []⟩ rfl).2.1

/-- Claim C8: every `multi` / `pipeline` invocation starts from a freshly
acquired, empty queuing handle, so each orchestration executes exactly its
own composition function's commands, for every client and store: nothing
queued elsewhere can leak in (conjunct 2 shows how the outcome would differ
if the handle carried pre-existing commands), and the Queued surface is
rebuilt around the fresh handle on every invocation. -/
theorem C8_fresh_queue_per_invocation {A : Type} (c : Client) (prog : TxProg A)
    (s : Store) (a : A) (q : List Cmd) (h : freshQueue prog = .ok (a, q)) :
    runProg prog ⟨[], s⟩ = .ok (a, ⟨q, s⟩) ∧
    (∀ q0, runProg prog ⟨q0, s⟩ = .ok (a, ⟨q0 ++ q, s⟩)) ∧
    multiRun c prog s =
      (match c.exec s q with
       | (.resolved v, s') => .ok ((a, v), s')
       | (.rejected cause, _) => .error (⟨cause⟩ : RedisError)) ∧
    pipelineRun c prog s =
      (match c.execAsPipeline s q with
       | (.resolved v, s') => .ok ((a, v), s')
       | (.rejected cause, _) => .error (⟨cause⟩ : RedisError)) := by
  refine ⟨?_, ?_, multiRun_ok c prog s a q h, pipelineRun_ok c prog s a q h⟩
  · rw [runProg_eq, h]
    rfl
  · intro q0
    rw [runProg_eq, h]

/-- Concrete instance of C8: the batch handed to atomic execution is exactly
the one command queued by this invocation. -/
theorem C8_witness :
    multiRun refClient (TxProg.queue ⟨"set", [.str "x", .str "2"]⟩ (.pure true)) [] =
      (match refClient.exec [] [⟨"set", [.str "x", .str "2"]⟩] with
       | (.resolved v, s') => .ok ((true, v), s')
       | (.rejected cause, _) => .error (⟨cause⟩ : RedisError)) :=
  (C8_fresh_queue_per_invocation refClient
      (TxProg.queue ⟨"set", [.str "x", .str "2"]⟩ (.pure true)) [] true
      [⟨"set", [.str "x", .str "2"]⟩] rfl).2.2.1

/-- Claim C10: when the composition function fails, the orchestration fails
with that very error for every client whatsoever — in particular the
batch-execution step is never consulted and no queued command reaches the
store. -/
theorem C10_failed_program_skips_exec {A : Type} (prog : TxProg A) (s : Store)
    (e : RedisError) (h : runProg prog ⟨[], s⟩ = .error e) :
    ∀ c : Client, multiRun c prog s = .error e ∧ pipelineRun c prog s = .error e := by
  intro c
  constructor
  · unfold multiRun
    rw [h]
  · unfold pipelineRun
    rw [h]

/-- A composition function that queues one command and then fails. -/
def failingProg : TxProg Nat :=
  .queue ⟨"set", [.str "a", .str "1"]⟩ (.fail ⟨.str "bad"⟩)

/-- Concrete instance of C10: even against a client whose execution step
would reject with a different cause, the orchestration fails with the
composition function's own error, proving the execution step was skipped. -/
theorem C10_witness :
    multiRun failExecClient failingProg [] = .error ⟨Value.str "bad"⟩ :=
  ((C10_failed_program_skips_exec failingProg [] ⟨.str "bad"⟩ rfl) failExecClient).1

/-- A connection-supplied client handle as seen at aggregate construction:
what its probe `client.eval` promise would do if awaited. -/
structure ConnHandle where
  evalProbe : PromiseResult Value
deriving DecidableEq, Repr

/-- The probe call observable at construction: the keys and arguments passed
to `client.eval` (the script is the trivial GET of KEYS[1]). -/
structure ProbeCall where
  keys : List String
  args : List String
deriving DecidableEq, Repr

/-- What constructing the live layer yields: the aggregate (bound to the
connection handle) plus the fired-and-forgotten probe promises. -/
structure LiveConstruction where
  core : ConnHandle
  firedProbes : List ProbeCall
deriving DecidableEq, Repr

/-- Embedding of `RedisCoreLive` (core/index.ts lines 131-143): obtain the
client from the connection layer, fire `client.eval` WITHOUT `yield*` — the
probe promise is started and immediately discarded, so its outcome never
enters the effect — then return `makeRedisCore(client)`. -/
def redisCoreLiveRun (conn : Except RedisError ConnHandle) :
    Except RedisError LiveConstruction :=
  match conn with
  | .error e => .error e
  | .ok client => .ok ⟨client, [⟨["key"], []⟩]⟩

/-- A handle over a broken connection: its probe promise rejects. -/
def brokenConn : ConnHandle :=
  ⟨.rejected (.str "connection refused")⟩

/-- Claim C6 evaluated on the code: construction does fire exactly one probe,
but because the probe is not awaited (`client.eval(...)` lacks `yield*`),
construction succeeds even on a broken connection whose probe rejects — the
fail-fast behaviour the claim (and spec 4.4) states does not happen. -/
theorem C6_probe_not_awaited :
    redisCoreLiveRun (.ok brokenConn) = .ok ⟨brokenConn, [⟨["key"], []⟩]⟩ ∧
    brokenConn.evalProbe = PromiseResult.rejected (.str "connection refused") ∧
    (redisCoreLiveRun (.ok brokenConn)).toOption.isSome = true :=
  ⟨rfl, rfl, rfl⟩

/-- Strategy tags of the two Execution Strategies (the helpers module's
AsyncExec and QueueExec), as selected by each family constructor. -/
inductive Strategy where
  | async : Strategy
  | queue : Strategy
deriving DecidableEq, Repr

/-- A Dispatch Table as data: the command-name set it was built from and the
execution-mode strategy adapting each callable. -/
structure DispatchTable where
  names : List String
  strategy : Strategy
deriving DecidableEq, Repr

/-- A client handle at its membership boundary: which identifiers exist as
callable members on it. -/
structure Handle where
  members : List String
deriving DecidableEq, Repr

/-- Modelled from the spec: the shared Command Group Factory
`makeCommandGroup` lives in the helpers module, which is absent from the
sources at hand; per spec 4.1 it builds one entry per name forwarding to the
member of the same name on the handle, must fail fast when a name is not a
callable member, and is otherwise a pure projection of its inputs. -/
def makeCommandGroupChecked (handle : Handle) (names : List String)
    (strategy : Strategy) : Except String DispatchTable :=
  if ∀ n ∈ names, n ∈ handle.members then .ok ⟨names, strategy⟩
  else .error "command name missing on handle"

/-- Claim C7: the factory fails fast at construction when some requested
name is not a callable member of the handle, and on valid names it yields
exactly the table projected from its inputs, with no other effect. -/
theorem C7_factory_fail_fast (handle : Handle) (names : List String)
    (strategy : Strategy) :
    ((∃ n ∈ names, n ∉ handle.members) →
        makeCommandGroupChecked handle names strategy =
          .error "command name missing on handle") ∧
    ((∀ n ∈ names, n ∈ handle.members) →
        makeCommandGroupChecked handle names strategy = .ok ⟨names, strategy⟩) := by
  constructor
  · intro hbad
    unfold makeCommandGroupChecked
    rw [if_neg]
    intro hall
    obtain ⟨n, hn, hnm⟩ := hbad
    exact hnm (hall n hn)
  · intro hall
    unfold makeCommandGroupChecked
    rw [if_pos hall]

/-- Concrete instance of C7: building the HyperLogLog table over a handle
exposing its three commands succeeds with exactly the projected table. -/
theorem C7_witness :
    makeCommandGroupChecked ⟨["pfAdd", "pfCount", "pfMerge"]⟩
        ["pfAdd", "pfCount", "pfMerge"] .async =
      .ok ⟨["pfAdd", "pfCount", "pfMerge"], .async⟩ :=
  (C7_factory_fail_fast ⟨["pfAdd", "pfCount", "pfMerge"]⟩
      ["pfAdd", "pfCount", "pfMerge"] .async).2 (by decide)

/-- Modelled from the spec together with the family call sites: the factory
application performed by each family constructor, a pure projection of the
name set and strategy. -/
def makeCommandGroup (names : List String) (strategy : Strategy) :
    DispatchTable :=
  ⟨names, strategy⟩

/-- The fixed HyperLogLog Command Name Set (commands/hyper-log-log.ts lines
18-24). -/
def redisHyperLogLogKeys : List String := ["pfAdd", "pfCount", "pfMerge"]

/-- The fixed geospatial Command Name Set (commands/geospatial.ts lines
24-35). -/
def redisGeoSpatialKeys : List String :=
  ["geoAdd", "geoDist", "geoHash", "geoPos", "geoRadius",
   "geoRadiusByMember", "geoRadiusByMemberRo", "geoRadiusRo", "geoSearch",
   "geoSearchStore"]

/-- commands/hyper-log-log.ts lines 38-41: the Immediate table of the
HyperLogLog family. -/
def makeRedisHyperLogLog : DispatchTable :=
  makeCommandGroup redisHyperLogLogKeys .async

/-- commands/hyper-log-log.ts lines 43-46: the Queued table of the
HyperLogLog family, from the same name set. -/
def makeRedisHyperLogLogQueue : DispatchTable :=
  makeCommandGroup redisHyperLogLogKeys .queue

/-- commands/geospatial.ts lines 49-52: the Immediate table of the
geospatial family. -/
def makeRedisGeoSpatial : DispatchTable :=
  makeCommandGroup redisGeoSpatialKeys .async

/-- commands/geospatial.ts lines 54-57: the Queued table of the geospatial
family, from the same name set. -/
def makeRedisGeoSpatialQueue : DispatchTable :=
  makeCommandGroup redisGeoSpatialKeys .queue

/-- Command-name sets of the remaining families, whose declaration files are
outside the sources at hand; the aggregate structure below is proved for
every choice of them. -/
structure FamilyKeys where
  bitmapKeys : List String
  genericKeys : List String
  hashKeys : List String
  listKeys : List String
  scriptingKeys : List String
  setKeys : List String
  sortedSetKeys : List String
  stringKeys : List String
  jsonKeys : List String

/-- A capability surface at the table level: the flattened family tables in
spread order, plus the nested document/JSON table. -/
structure CoreSurface where
  flat : List DispatchTable
  json : DispatchTable

/-- The table layer of `makeRedisCore` (core/index.ts lines 84-95): the ten
family Immediate tables spread flattened in source order, with the
document/JSON family alone exposed as the nested field `json`. -/
def makeRedisCoreTables (fk : FamilyKeys) : CoreSurface :=
  { flat := [makeCommandGroup fk.bitmapKeys .async,
             makeCommandGroup fk.genericKeys .async,
             makeCommandGroup fk.hashKeys .async,
             makeRedisHyperLogLog,
             makeCommandGroup fk.listKeys .async,
             makeCommandGroup fk.scriptingKeys .async,
             makeCommandGroup fk.setKeys .async,
             makeCommandGroup fk.sortedSetKeys .async,
             makeCommandGroup fk.stringKeys .async,
             makeRedisGeoSpatial],
    json := makeCommandGroup fk.jsonKeys .async }

/-- The table layer of `makeRedisTx` (core/index.ts lines 70-82): the same
ten families as Queued tables, with the document/JSON family nested. -/
def makeRedisTxTables (fk : FamilyKeys) : CoreSurface :=
  { flat := [makeCommandGroup fk.bitmapKeys .queue,
             makeCommandGroup fk.genericKeys .queue,
             makeCommandGroup fk.hashKeys .queue,
             makeRedisHyperLogLogQueue,
             makeCommandGroup fk.listKeys .queue,
             makeCommandGroup fk.scriptingKeys .queue,
             makeCommandGroup fk.setKeys .queue,
             makeCommandGroup fk.sortedSetKeys .queue,
             makeCommandGroup fk.stringKeys .queue,
             makeRedisGeoSpatialQueue],
    json := makeCommandGroup fk.jsonKeys .queue }

/-- Claim C9: each family obtains both its Immediate and its Queued table
from its one fixed name set through the one shared factory — HyperLogLog
from pfAdd, pfCount, pfMerge; geospatial from its ten names — and the Core
Aggregate keeps the family tables flattened while the document/JSON family
alone is the nested `json` field, for every choice of the remaining
families' name sets. -/
theorem C9_families_and_aggregate (fk : FamilyKeys) :
    makeRedisHyperLogLog = makeCommandGroup ["pfAdd", "pfCount", "pfMerge"] .async ∧
    makeRedisHyperLogLogQueue = makeCommandGroup ["pfAdd", "pfCount", "pfMerge"] .queue ∧
    makeRedisHyperLogLog.names = makeRedisHyperLogLogQueue.names ∧
    makeRedisGeoSpatial = makeCommandGroup redisGeoSpatialKeys .async ∧
    makeRedisGeoSpatialQueue = makeCommandGroup redisGeoSpatialKeys .queue ∧
    redisGeoSpatialKeys.length = 10 ∧
    makeRedisHyperLogLog ∈ (makeRedisCoreTables fk).flat ∧
    makeRedisGeoSpatial ∈ (makeRedisCoreTables fk).flat ∧
    makeRedisHyperLogLogQueue ∈ (makeRedisTxTables fk).flat ∧
    makeRedisGeoSpatialQueue ∈ (makeRedisTxTables fk).flat ∧
    (makeRedisCoreTables fk).flat.length = 10 ∧
    (makeRedisCoreTables fk).json = makeCommandGroup fk.jsonKeys .async := by
  refine ⟨rfl, rfl, rfl, rfl, rfl, rfl, ?_, ?_, ?_, ?_, rfl, rfl⟩ <;>
    simp [makeRedisCoreTables, makeRedisTxTables]
